import Mathlib

set_option maxRecDepth 8192

/-!
Shallow embedding of the csilvm repository: the bootstrap program
`cmd/csilvm/csilvm.go` and the client bundle `lvs/client.go`.
The bootstrap `main` is modelled as a function from the parsed flag
configuration, the process environment, and the outcomes of the two
external fallible steps (socket listen, server setup) to the ordered
trace of externally visible events it performs.
-/

namespace Csilvm

/-- Constant block of csilvm.go (lines 18-22). -/
def defaultDefaultFs : String := "xfs"

/-- Default volume size, `10 << 30` bytes (csilvm.go line 20). -/
def defaultDefaultVolumeSize : Nat := 10 <<< 30

/-- Default request limit (csilvm.go line 21). -/
def defaultRequestLimit : Int := 10

/-- `defaultMaxStringLen` local constant of main (csilvm.go line 79). -/
def defaultMaxStringLen : Nat := 128

/-- The parsed flag configuration of the bootstrap program: one field per
command-line flag declared in main (csilvm.go lines 37-49). -/
structure Config where
  requestLimit : Int
  vgname : String
  pvnames : String
  defaultFs : String
  defaultVolumeSize : Nat
  socketFile : String
  socketFileEnv : String
  remove : Bool
  tags : List String
  probeModules : List String
  nodeID : String
deriving DecidableEq

/-- The flag values actually supplied on a command line: `none` means the
flag was absent, so its declared default applies. Repeatable flags are the
list of their occurrences in command-line order. -/
structure FlagArgs where
  requestLimit : Option Int
  vgname : Option String
  pvnames : Option String
  defaultFs : Option String
  defaultVolumeSize : Option Nat
  socketFile : Option String
  socketFileEnv : Option String
  remove : Option Bool
  tags : List String
  probeModules : List String
  nodeID : Option String

/-- Flag parsing: each absent flag falls back to the default declared in
the corresponding `flag.*` call (csilvm.go lines 37-50). -/
def parseFlags (a : FlagArgs) : Config :=
  { requestLimit := a.requestLimit.getD defaultRequestLimit
    vgname := a.vgname.getD ("")
    pvnames := a.pvnames.getD ("")
    defaultFs := a.defaultFs.getD defaultDefaultFs
    defaultVolumeSize := a.defaultVolumeSize.getD defaultDefaultVolumeSize
    socketFile := a.socketFile.getD ("")
    socketFileEnv := a.socketFileEnv.getD ("")
    remove := a.remove.getD false
    tags := a.tags
    probeModules := a.probeModules
    nodeID := a.nodeID.getD ("") }

/-- One call of `stringsFlag.Set` (csilvm.go lines 30-33): append the
argument to the accumulated list. -/
def stringsFlagSet (f : List String) (tag : String) : List String :=
  f ++ [tag]

/-- Repeated occurrences of a repeatable flag: the flag package calls
`Set` once per occurrence, in command-line order. -/
def stringsFlagSetAll (f : List String) (args : List String) : List String :=
  args.foldl stringsFlagSet f

/-- Scheme stripping (csilvm.go lines 65-67): a leading literal `unix://`
is removed from the resolved socket value, as
`strings.HasPrefix(sock, "unix://")` followed by slicing off
`len("unix://")`. The prefix is 7 ASCII characters, so dropping 7
characters matches Go's 7-byte slice. -/
def stripUnixScheme (sock : String) : String :=
  if ("unix://").toList.isPrefixOf sock.toList then String.mk (sock.toList.drop 7)
  else sock

/-- Socket resolution (csilvm.go lines 61-67): the environment variable
named by `-unix-addr-env` wins when that flag is non-empty, otherwise the
direct `-unix-addr` value is used; then the scheme is stripped. `env`
models `os.Getenv` (an unset variable reads as the empty string). -/
def resolveSockPath (cfg : Config) (env : String → String) : String :=
  stripUnixScheme (if cfg.socketFileEnv ≠ "" then env cfg.socketFileEnv else cfg.socketFile)

/-- One interceptor stage, as produced by the three csilvm interceptor
constructors (csilvm.go lines 87-89). -/
inductive InterceptorStage where
  | requestLimit (limit : Int)
  | serializing
  | logging
deriving DecidableEq

/-- `csilvm.RequestLimitInterceptor` (csilvm.go line 87). -/
def RequestLimitInterceptor (limit : Int) : InterceptorStage :=
  InterceptorStage.requestLimit limit

/-- `csilvm.SerializingInterceptor` (csilvm.go line 88). -/
def SerializingInterceptor : InterceptorStage :=
  InterceptorStage.serializing

/-- `csilvm.LoggingInterceptor` (csilvm.go line 89). -/
def LoggingInterceptor : InterceptorStage :=
  InterceptorStage.logging

/-- The composition of a sequence of interceptor stages into one unary
interceptor, as `csilvm.ChainUnaryServer` does; the stage order is kept. -/
structure ChainedInterceptor where
  stages : List InterceptorStage
deriving DecidableEq

/-- `csilvm.ChainUnaryServer` (csilvm.go line 86). -/
def ChainUnaryServer (xs : List InterceptorStage) : ChainedInterceptor :=
  { stages := xs }

/-- A grpc server option; the bootstrap only ever builds
`grpc.UnaryInterceptor` options (csilvm.go lines 84-92). -/
inductive GrpcOption where
  | unaryInterceptor (i : ChainedInterceptor)
deriving DecidableEq

/-- The `grpcOpts` slice built by main (csilvm.go lines 83-92): a single
unary-interceptor option holding the chained three stages. -/
def mkGrpcOpts (requestLimit : Int) : List GrpcOption :=
  [] ++ [GrpcOption.unaryInterceptor (ChainUnaryServer
    [RequestLimitInterceptor requestLimit,
     SerializingInterceptor,
     LoggingInterceptor])]

/-- A csilvm server option, one constructor per option builder used by
main (csilvm.go lines 94-106). -/
inductive ServerOpt where
  | nodeID (s : String)
  | defaultVolumeSize (n : Nat)
  | probeModules (ms : List String)
  | removeVolumeGroup
  | tag (t : String)
deriving DecidableEq

/-- The `opts` slice built by main (csilvm.go lines 94-106): node id,
then default volume size and probe modules, then (conditionally) the
remove-volume-group option, then one tag option per tag in order. -/
def mkServerOpts (cfg : Config) : List ServerOpt :=
  let opts := [ServerOpt.nodeID cfg.nodeID]
  let opts := opts ++
    [ServerOpt.defaultVolumeSize cfg.defaultVolumeSize,
     ServerOpt.probeModules cfg.probeModules]
  let opts := if cfg.remove then opts ++ [ServerOpt.removeVolumeGroup] else opts
  cfg.tags.foldl (fun acc tag => acc ++ [ServerOpt.tag tag]) opts

/-- The argument bundle handed to `csilvm.NewServer` (csilvm.go line 107):
volume group name, the `-devices` string split on commas, the default
filesystem, and the option list. -/
structure Server where
  vgname : String
  pvnames : List String
  defaultFs : String
  opts : List ServerOpt
deriving DecidableEq

/-- Go's `strings.Split(s, ",")` over the characters of `s`: every
segment between commas is kept, empty segments included, and the empty
string yields the one-element list holding the empty string. -/
def stringsSplitCommaAux : List Char → List Char → List String
  | [], acc => [String.mk acc.reverse]
  | c :: rest, acc =>
    if c = ',' then String.mk acc.reverse :: stringsSplitCommaAux rest []
    else stringsSplitCommaAux rest (c :: acc)

/-- See `stringsSplitCommaAux`. -/
def stringsSplitComma (s : String) : List String :=
  stringsSplitCommaAux s.toList []

/-- Server construction (csilvm.go line 107): volume group name, the
`-devices` string split on commas, default filesystem, option list. -/
def mkServer (cfg : Config) : Server :=
  { vgname := cfg.vgname
    pvnames := stringsSplitComma cfg.pvnames
    defaultFs := cfg.defaultFs
    opts := mkServerOpts cfg }

/-- Models the Go `%q` verb of the fmt boundary collaborator for the
strings the program passes it: the value wrapped in double quotes with
backslash and double quote escaped (exact for printable ASCII). -/
def goQuoteChar (c : Char) : String :=
  if c = '\\' then ("\\\\")
  else if c = '"' then ("\\\"")
  else String.singleton c

/-- See `goQuoteChar`. -/
def goQuote (s : String) : String :=
  ("\"") ++ String.join (s.toList.map goQuoteChar) ++ ("\"")

/-- Diagnostic of the mutually-exclusive socket flags (csilvm.go line 59). -/
def fatalConflictMsg (vg : String) : String :=
  ("[") ++ vg ++ ("] cannot specify -unix-addr and -unix-addr-env")

/-- Diagnostic of a listen failure (csilvm.go line 71). -/
def fatalListenMsg (vg err : String) : String :=
  ("[") ++ vg ++ ("] Failed to listen: ") ++ err

/-- Diagnostic of a non-positive request limit (csilvm.go line 75). -/
def fatalRequestLimitMsg (limit : Int) : String :=
  ("request-limit requires a positive, integer value instead of ") ++ toString limit

/-- Diagnostic of an oversized node id (csilvm.go line 81). -/
def fatalNodeIDMsg (nodeID : String) : String :=
  ("node-id cannot be longer than ") ++ toString defaultMaxStringLen ++
    (" bytes: ") ++ goQuote nodeID

/-- Diagnostic of a failed server setup (csilvm.go line 109). -/
def fatalSetupMsg (vg err : String) : String :=
  ("[") ++ vg ++ ("] error initializing csilvm plugin: err=") ++ err

/-- The externally visible events of a bootstrap run, in order: a fatal
log-and-exit, the attempt to listen on a socket path, the construction of
the grpc server from its options, the construction of the csilvm server,
the three service registrations, and entering the serve loop. -/
inductive Event where
  | fatal (msg : String)
  | listenAttempt (path : String)
  | grpcServerConstructed (opts : List GrpcOption)
  | serverConstructed (srv : Server)
  | registerIdentity
  | registerController
  | registerNode
  | serve
deriving DecidableEq

/-- The bootstrap `main` (csilvm.go lines 35-115) after flag parsing,
as the ordered trace of its events. `env` models `os.Getenv`;
`listenErr`/`setupErr` are the outcomes of the two external fallible
calls (`net.Listen`, `s.Setup()`), `some e` meaning failure with error
text `e`. A fatal event ends the trace (log.Fatalf exits the process). -/
def runMain (cfg : Config) (env : String → String)
    (listenErr : Option String) (setupErr : Option String) : List Event :=
  if cfg.socketFile ≠ "" ∧ cfg.socketFileEnv ≠ "" then
    [Event.fatal (fatalConflictMsg cfg.vgname)]
  else
    Event.listenAttempt (resolveSockPath cfg env) ::
      match listenErr with
      | some e => [Event.fatal (fatalListenMsg cfg.vgname e)]
      | none =>
        if cfg.requestLimit < 1 then
          [Event.fatal (fatalRequestLimitMsg cfg.requestLimit)]
        else if cfg.nodeID.utf8ByteSize > defaultMaxStringLen then
          [Event.fatal (fatalNodeIDMsg cfg.nodeID)]
        else
          Event.grpcServerConstructed (mkGrpcOpts cfg.requestLimit) ::
          Event.serverConstructed (mkServer cfg) ::
            match setupErr with
            | some e => [Event.fatal (fatalSetupMsg cfg.vgname e)]
            | none =>
              [Event.registerIdentity, Event.registerController,
               Event.registerNode, Event.serve]

/-- Whether an event is a fatal log-and-exit. -/
def isFatalEv : Event → Bool
  | Event.fatal _ => true
  | _ => false

/-- Whether an event is a listen attempt. -/
def isListenEv : Event → Bool
  | Event.listenAttempt _ => true
  | _ => false

/-- Whether an event is the csilvm server construction. -/
def isServerEv : Event → Bool
  | Event.serverConstructed _ => true
  | _ => false

/-- A run terminates fatally when its last event is a fatal log. -/
def endsFatal : List Event → Bool
  | [] => false
  | [ev] => isFatalEv ev
  | _ :: ev :: rest => endsFatal (ev :: rest)

/-- A run attempts to listen when its trace holds a listen attempt. -/
def attemptsListen (tr : List Event) : Bool :=
  tr.any isListenEv

/-- A run constructs a server when its trace holds a server construction. -/
def constructsServer (tr : List Event) : Bool :=
  tr.any isServerEv

/-- Substring test used to state what a diagnostic message identifies. -/
def containsStr (s pat : String) : Bool :=
  decide (pat.toList <:+: s.toList)

/-- Extracts the string of a tag option. -/
def tagValue : ServerOpt → Option String
  | ServerOpt.tag t => some t
  | _ => none

/-- Extracts the module list of a probe-modules option. -/
def probeModulesValue : ServerOpt → Option (List String)
  | ServerOpt.probeModules ms => some ms
  | _ => none

/-- A valid concrete configuration: `-volume-group vg0 -devices /dev/sda
-unix-addr /tmp/t.sock`, every other flag at its default. -/
def baseConfig : Config :=
  { requestLimit := defaultRequestLimit
    vgname := ("vg0")
    pvnames := ("/dev/sda")
    defaultFs := defaultDefaultFs
    defaultVolumeSize := defaultDefaultVolumeSize
    socketFile := ("/tmp/t.sock")
    socketFileEnv := ("")
    remove := false
    tags := []
    probeModules := []
    nodeID := ("") }

/-- `baseConfig` with `-unix-addr-env` also supplied. -/
def cfgBothSockets : Config :=
  { baseConfig with socketFileEnv := ("E") }

/-- `baseConfig` with `-request-limit 0`. -/
def cfgLimitZero : Config :=
  { baseConfig with requestLimit := 0 }

/-- `baseConfig` with the socket path taken from the environment. -/
def cfgEnvSock : Config :=
  { baseConfig with socketFile := (""), socketFileEnv := ("SOCK") }

/-- `baseConfig` with a 129-byte ASCII node id. -/
def cfgNode129 : Config :=
  { baseConfig with nodeID := String.mk (List.replicate 129 'a') }

/-- `baseConfig` with a 128-byte ASCII node id. -/
def cfgNode128 : Config :=
  { baseConfig with nodeID := String.mk (List.replicate 128 'a') }

/-- `baseConfig` with the default (empty) `-devices` value. -/
def cfgNoDevices : Config :=
  { baseConfig with pvnames := ("") }

/-- An environment in which every variable is unset. -/
def envEmpty : String → String := fun _ => ("")

/-- An environment whose variables all read `unix:///tmp/x.sock`. -/
def envSock : String → String := fun _ => ("unix:///tmp/x.sock")

/-- A command line supplying no flags at all. -/
def argsNone : FlagArgs :=
  { requestLimit := none
    vgname := none
    pvnames := none
    defaultFs := none
    defaultVolumeSize := none
    socketFile := none
    socketFileEnv := none
    remove := none
    tags := []
    probeModules := []
    nodeID := none }

end Csilvm

namespace Lvs

/-- An established connection handle (`*grpc.ClientConn`), opaque to this
repository; modelled as an abstract token. -/
structure ClientConn where
  handle : Nat
deriving DecidableEq

/-- The identity-service client stub over a connection, as returned by
`csi.NewIdentityClient`; its operations go through the held connection. -/
structure IdentityClient where
  conn : ClientConn
deriving DecidableEq

/-- The controller-service client stub over a connection, as returned by
`csi.NewControllerClient`. -/
structure ControllerClient where
  conn : ClientConn
deriving DecidableEq

/-- `csi.NewIdentityClient` (client.go line 15): wraps the connection. -/
def NewIdentityClient (conn : ClientConn) : IdentityClient :=
  { conn := conn }

/-- `csi.NewControllerClient` (client.go line 16): wraps the connection. -/
def NewControllerClient (conn : ClientConn) : ControllerClient :=
  { conn := conn }

/-- The client bundle (client.go lines 8-11): the two embedded client
stubs, whose operation sets the bundle exposes directly. -/
structure Client where
  identityClient : IdentityClient
  controllerClient : ControllerClient
deriving DecidableEq

/-- `lvs.NewClient` (client.go lines 13-18): pure composition of the two
stubs over the one supplied connection. -/
def NewClient (conn : ClientConn) : Client :=
  { identityClient := NewIdentityClient conn
    controllerClient := NewControllerClient conn }

end Lvs

namespace Csilvm

/-- The reach condition: the mutually-exclusive-flags check does not fire
when at least one of the two socket flags is empty. -/
theorem not_conflict_of_empty {cfg : Config}
    (hc : cfg.socketFile = "" ∨ cfg.socketFileEnv = "") :
    ¬(cfg.socketFile ≠ "" ∧ cfg.socketFileEnv ≠ "") := by
  rcases hc with h | h <;> simp [h]

/-- Shape of a run that passes every local configuration check and whose
listen succeeds. -/
theorem runMain_ok (cfg : Config) (env : String → String) (se : Option String)
    (hc : cfg.socketFile = "" ∨ cfg.socketFileEnv = "")
    (hl : 1 ≤ cfg.requestLimit)
    (hn : cfg.nodeID.utf8ByteSize ≤ defaultMaxStringLen) :
    runMain cfg env none se =
      Event.listenAttempt (resolveSockPath cfg env) ::
      Event.grpcServerConstructed (mkGrpcOpts cfg.requestLimit) ::
      Event.serverConstructed (mkServer cfg) ::
      (match se with
       | some e => [Event.fatal (fatalSetupMsg cfg.vgname e)]
       | none => [Event.registerIdentity, Event.registerController,
                  Event.registerNode, Event.serve]) := by
  have hc' := not_conflict_of_empty hc
  have hl' : ¬(cfg.requestLimit < 1) := not_lt.mpr hl
  have hn' : ¬(cfg.nodeID.utf8ByteSize > defaultMaxStringLen) := not_lt.mpr hn
  simp only [runMain, if_neg hc', if_neg hl', if_neg hn']

/-- Folding single-element appends is the same as appending the mapped
list; the common shape of the repeatable-flag and tag-option folds. -/
theorem foldl_append_singleton {α β : Type} (g : α → β) :
    ∀ (xs : List α) (acc : List β),
      xs.foldl (fun a t => a ++ [g t]) acc = acc ++ xs.map g := by
  intro xs
  induction xs with
  | nil => intro acc; simp
  | cons x xs ih => intro acc; simp [ih]

/-- Closed form of the option list built by main. -/
theorem mkServerOpts_eq (cfg : Config) :
    mkServerOpts cfg =
      ServerOpt.nodeID cfg.nodeID ::
      ServerOpt.defaultVolumeSize cfg.defaultVolumeSize ::
      ServerOpt.probeModules cfg.probeModules ::
      ((if cfg.remove then [ServerOpt.removeVolumeGroup] else []) ++
        cfg.tags.map ServerOpt.tag) := by
  unfold mkServerOpts
  rw [foldl_append_singleton ServerOpt.tag]
  cases cfg.remove <;> simp

/-- Tag options recover exactly the tag strings, in order. -/
theorem filterMap_tagValue_comp_tag (ts : List String) :
    List.filterMap (tagValue ∘ ServerOpt.tag) ts = ts := by
  induction ts with
  | nil => rfl
  | cons t ts ih => simp [tagValue, ih]

/-- Tag options carry no probe-module payload. -/
theorem filterMap_probeValue_comp_tag (ts : List String) :
    List.filterMap (probeModulesValue ∘ ServerOpt.tag) ts = [] := by
  induction ts with
  | nil => rfl
  | cons t ts ih => simp [probeModulesValue, ih]

/-- Repeated `stringsFlag.Set` calls append their arguments in order. -/
theorem stringsFlagSetAll_append :
    ∀ (args acc : List String), stringsFlagSetAll acc args = acc ++ args := by
  intro args
  induction args with
  | nil => intro acc; simp [stringsFlagSetAll]
  | cons x xs ih =>
      intro acc
      simp only [stringsFlagSetAll, List.foldl_cons] at ih ⊢
      rw [ih]
      simp [stringsFlagSet]

/-- A middle append component is a substring of the whole. -/
theorem containsStr_append_mid (a b c : String) :
    containsStr (a ++ b ++ c) b = true := by
  simp only [containsStr, decide_eq_true_eq]
  refine ⟨a.toList, c.toList, ?_⟩
  simp [String.toList, String.data_append]

/-- A final append component is a substring of the whole. -/
theorem containsStr_append_right (a b : String) :
    containsStr (a ++ b) b = true := by
  simp only [containsStr, decide_eq_true_eq]
  refine ⟨a.toList, [], ?_⟩
  simp [String.toList, String.data_append]

/-- The comma split never drops a segment: there is one segment per comma
plus one, so empty segments are kept. -/
theorem stringsSplitCommaAux_length :
    ∀ (cs acc : List Char),
      (stringsSplitCommaAux cs acc).length = cs.count ',' + 1 := by
  intro cs
  induction cs with
  | nil => intro acc; simp [stringsSplitCommaAux]
  | cons c rest ih =>
      intro acc
      by_cases h : c = ','
      · simp [stringsSplitCommaAux, h, ih, List.count_cons]
      · simp [stringsSplitCommaAux, h, ih, List.count_cons]

/-- See `stringsSplitCommaAux_length`. -/
theorem stringsSplitComma_length (s : String) :
    (stringsSplitComma s).length = s.toList.count ',' + 1 := by
  unfold stringsSplitComma
  exact stringsSplitCommaAux_length s.toList []

end Csilvm

namespace Csilvm

/-- C1: whenever both `-unix-addr` and `-unix-addr-env` are non-empty, the
run is exactly the fatal conflict diagnostic: it terminates fatally without
ever attempting to listen on a socket and without constructing a server. -/
theorem conflicting_socket_flags_fatal (cfg : Config) (env : String → String)
    (le se : Option String)
    (h1 : cfg.socketFile ≠ "") (h2 : cfg.socketFileEnv ≠ "") :
    runMain cfg env le se = [Event.fatal (fatalConflictMsg cfg.vgname)] ∧
    endsFatal (runMain cfg env le se) = true ∧
    attemptsListen (runMain cfg env le se) = false ∧
    constructsServer (runMain cfg env le se) = false := by
  have h : runMain cfg env le se = [Event.fatal (fatalConflictMsg cfg.vgname)] := by
    simp [runMain, h1, h2]
  refine ⟨h, ?_, ?_, ?_⟩ <;> rw [h] <;> rfl

/-- C1 witness: both socket flags non-empty in a concrete configuration. -/
theorem conflicting_socket_flags_fatal_witness :
    runMain cfgBothSockets envEmpty none none =
      [Event.fatal (fatalConflictMsg cfgBothSockets.vgname)] ∧
    endsFatal (runMain cfgBothSockets envEmpty none none) = true ∧
    attemptsListen (runMain cfgBothSockets envEmpty none none) = false ∧
    constructsServer (runMain cfgBothSockets envEmpty none none) = false :=
  conflicting_socket_flags_fatal cfgBothSockets envEmpty none none
    (by decide) (by decide)

/-- C2: whenever the request limit is below 1, the run terminates fatally
and never constructs a server, whatever the other inputs. -/
theorem nonpositive_request_limit_no_server (cfg : Config)
    (env : String → String) (le se : Option String)
    (h : cfg.requestLimit < 1) :
    endsFatal (runMain cfg env le se) = true ∧
    constructsServer (runMain cfg env le se) = false := by
  by_cases hc : cfg.socketFile ≠ "" ∧ cfg.socketFileEnv ≠ ""
  · simp [runMain, hc, endsFatal, isFatalEv, constructsServer, isServerEv]
  · rcases le with _ | e
    · simp [runMain, hc, h, endsFatal, isFatalEv, constructsServer, isServerEv]
    · simp [runMain, hc, endsFatal, isFatalEv, constructsServer, isServerEv]

/-- C2 witness: `-request-limit 0` in a concrete configuration. -/
theorem nonpositive_request_limit_no_server_witness :
    endsFatal (runMain cfgLimitZero envEmpty none none) = true ∧
    constructsServer (runMain cfgLimitZero envEmpty none none) = false :=
  nonpositive_request_limit_no_server cfgLimitZero envEmpty none none (by decide)

/-- C3: past the earlier checks, a node id longer than 128 bytes makes the
run end at the fatal node-id diagnostic with no server constructed, while a
node id of at most 128 bytes leaves the check silent and startup proceeds
to server construction. -/
theorem node_id_length_check (cfg : Config) (env : String → String)
    (se : Option String)
    (hc : cfg.socketFile = "" ∨ cfg.socketFileEnv = "")
    (hl : 1 ≤ cfg.requestLimit) :
    (cfg.nodeID.utf8ByteSize > defaultMaxStringLen →
       runMain cfg env none se =
         [Event.listenAttempt (resolveSockPath cfg env),
          Event.fatal (fatalNodeIDMsg cfg.nodeID)] ∧
       endsFatal (runMain cfg env none se) = true ∧
       constructsServer (runMain cfg env none se) = false) ∧
    (cfg.nodeID.utf8ByteSize ≤ defaultMaxStringLen →
       constructsServer (runMain cfg env none se) = true) := by
  have hc' := not_conflict_of_empty hc
  have hl' : ¬(cfg.requestLimit < 1) := not_lt.mpr hl
  constructor
  · intro hn
    have h : runMain cfg env none se =
        [Event.listenAttempt (resolveSockPath cfg env),
         Event.fatal (fatalNodeIDMsg cfg.nodeID)] := by
      simp only [runMain, if_neg hc', if_neg hl', if_pos hn]
    refine ⟨h, ?_, ?_⟩ <;> rw [h] <;> rfl
  · intro hn
    rw [runMain_ok cfg env se hc hl hn]
    rcases se with _ | e <;>
      simp [constructsServer, isServerEv]

/-- C3 witness: a 129-byte node id fails, a 128-byte one proceeds. -/
theorem node_id_length_check_witness :
    (runMain cfgNode129 envEmpty none none =
       [Event.listenAttempt (resolveSockPath cfgNode129 envEmpty),
        Event.fatal (fatalNodeIDMsg cfgNode129.nodeID)] ∧
     endsFatal (runMain cfgNode129 envEmpty none none) = true ∧
     constructsServer (runMain cfgNode129 envEmpty none none) = false) ∧
    constructsServer (runMain cfgNode128 envEmpty none none) = true :=
  ⟨(node_id_length_check cfgNode129 envEmpty none (by decide) (by decide)).1
      (by decide),
   (node_id_length_check cfgNode128 envEmpty none (by decide) (by decide)).2
      (by decide)⟩

/-- C4: with `-unix-addr` empty and `-unix-addr-env` set, the listen path
is the environment variable's value with a leading `unix://` stripped;
with `-unix-addr-env` empty, it is the direct `-unix-addr` value under the
same stripping; and stripping takes `unix:///tmp/x.sock` to `/tmp/x.sock`. -/
theorem effective_listen_path (cfg : Config) (env : String → String)
    (le se : Option String) :
    (cfg.socketFile = "" → cfg.socketFileEnv ≠ "" →
       (runMain cfg env le se).head? =
         some (Event.listenAttempt (stripUnixScheme (env cfg.socketFileEnv)))) ∧
    (cfg.socketFileEnv = "" →
       (runMain cfg env le se).head? =
         some (Event.listenAttempt (stripUnixScheme cfg.socketFile))) ∧
    stripUnixScheme ("unix:///tmp/x.sock") = ("/tmp/x.sock") := by
  refine ⟨?_, ?_, by decide⟩
  · intro h1 h2
    have hc' : ¬(cfg.socketFile ≠ "" ∧ cfg.socketFileEnv ≠ "") := by simp [h1]
    simp [runMain, hc', resolveSockPath, h1, h2]
  · intro h
    have hc' : ¬(cfg.socketFile ≠ "" ∧ cfg.socketFileEnv ≠ "") := by simp [h]
    simp [runMain, hc', resolveSockPath, h]

/-- C4 witness: the environment path `unix:///tmp/x.sock` and the direct
path of the base configuration. -/
theorem effective_listen_path_witness :
    (runMain cfgEnvSock envSock none none).head? =
      some (Event.listenAttempt
        (stripUnixScheme (envSock cfgEnvSock.socketFileEnv))) ∧
    (runMain baseConfig envEmpty none none).head? =
      some (Event.listenAttempt (stripUnixScheme baseConfig.socketFile)) :=
  ⟨(effective_listen_path cfgEnvSock envSock none none).1 (by decide) (by decide),
   (effective_listen_path baseConfig envEmpty none none).2.1 (by decide)⟩

/-- C5: a run reaching grpc-server construction configures it with exactly
one unary-interceptor option, the chain of the request-limit stage at the
configured limit, then the serializing stage, then the logging stage. -/
theorem single_chained_unary_interceptor (cfg : Config)
    (env : String → String) (se : Option String)
    (hc : cfg.socketFile = "" ∨ cfg.socketFileEnv = "")
    (hl : 1 ≤ cfg.requestLimit)
    (hn : cfg.nodeID.utf8ByteSize ≤ defaultMaxStringLen) :
    Event.grpcServerConstructed (mkGrpcOpts cfg.requestLimit) ∈
      runMain cfg env none se ∧
    mkGrpcOpts cfg.requestLimit =
      [GrpcOption.unaryInterceptor (ChainUnaryServer
        [RequestLimitInterceptor cfg.requestLimit,
         SerializingInterceptor,
         LoggingInterceptor])] := by
  rw [runMain_ok cfg env se hc hl hn]
  exact ⟨by simp, rfl⟩

/-- C5 witness: the base configuration reaches grpc construction. -/
theorem single_chained_unary_interceptor_witness :
    Event.grpcServerConstructed (mkGrpcOpts baseConfig.requestLimit) ∈
      runMain baseConfig envEmpty none none ∧
    mkGrpcOpts baseConfig.requestLimit =
      [GrpcOption.unaryInterceptor (ChainUnaryServer
        [RequestLimitInterceptor baseConfig.requestLimit,
         SerializingInterceptor,
         LoggingInterceptor])] :=
  single_chained_unary_interceptor baseConfig envEmpty none
    (by decide) (by decide) (by decide)

/-- C6: repeated flag occurrences accumulate in command-line order, the
option list carries one tag option per tag in that order, and the probe
module list is passed through unchanged as one option. -/
theorem repeatable_flags_order (cfg : Config) :
    (∀ (acc args : List String), stringsFlagSetAll acc args = acc ++ args) ∧
    (mkServerOpts cfg).filterMap tagValue = cfg.tags ∧
    (mkServerOpts cfg).filterMap probeModulesValue = [cfg.probeModules] ∧
    (mkServer cfg).opts = mkServerOpts cfg := by
  refine ⟨fun acc args => stringsFlagSetAll_append args acc, ?_, ?_, rfl⟩
  · rw [mkServerOpts_eq]
    cases cfg.remove <;>
      simp [tagValue, filterMap_tagValue_comp_tag]
  · rw [mkServerOpts_eq]
    cases cfg.remove <;>
      simp [probeModulesValue, filterMap_probeValue_comp_tag]

/-- C7: an absent `-default-fs` yields a server built with the default
filesystem `xfs`, and an absent `-default-volume-size` yields the
default-volume-size option at exactly 10737418240 bytes. -/
theorem default_fs_and_volume_size (a : FlagArgs) :
    (a.defaultFs = none →
       (mkServer (parseFlags a)).defaultFs = defaultDefaultFs ∧
       defaultDefaultFs = ("xfs")) ∧
    (a.defaultVolumeSize = none →
       ServerOpt.defaultVolumeSize defaultDefaultVolumeSize ∈
         mkServerOpts (parseFlags a) ∧
       defaultDefaultVolumeSize = 10737418240) := by
  constructor
  · intro h
    exact ⟨by simp [mkServer, parseFlags, h], rfl⟩
  · intro h
    refine ⟨?_, by decide⟩
    rw [mkServerOpts_eq]
    simp [parseFlags, h]

/-- C7 witness: the empty command line. -/
theorem default_fs_and_volume_size_witness :
    ((mkServer (parseFlags argsNone)).defaultFs = defaultDefaultFs ∧
     defaultDefaultFs = ("xfs")) ∧
    (ServerOpt.defaultVolumeSize defaultDefaultVolumeSize ∈
       mkServerOpts (parseFlags argsNone) ∧
     defaultDefaultVolumeSize = 10737418240) :=
  ⟨(default_fs_and_volume_size argsNone).1 rfl,
   (default_fs_and_volume_size argsNone).2 rfl⟩

/-- C8 counterexample: with volume group `vg0` and `-request-limit 0`, the
run ends at a fatal configuration diagnostic that does not contain the
volume group name, so not every configuration-error diagnostic identifies
both the volume group and the offending value. -/
theorem config_error_message_counterexample :
    runMain cfgLimitZero envEmpty none none =
      [Event.listenAttempt ("/tmp/t.sock"),
       Event.fatal (fatalRequestLimitMsg 0)] ∧
    cfgLimitZero.vgname = ("vg0") ∧
    containsStr (fatalRequestLimitMsg 0) ("vg0") = false := by
  refine ⟨by decide, by decide, by decide⟩

/-- C8 amended: every locally detected configuration error terminates the
run with a diagnostic; the conflicting-socket-flags diagnostic embeds the
volume group name but not the offending values, while the request-limit
and node-id diagnostics embed the offending value but not the volume
group name. -/
theorem config_error_diagnostics (cfg : Config) (env : String → String)
    (le se : Option String) :
    (cfg.socketFile ≠ "" → cfg.socketFileEnv ≠ "" →
       runMain cfg env le se = [Event.fatal (fatalConflictMsg cfg.vgname)] ∧
       containsStr (fatalConflictMsg cfg.vgname) cfg.vgname = true) ∧
    ((cfg.socketFile = "" ∨ cfg.socketFileEnv = "") → cfg.requestLimit < 1 →
       runMain cfg env none se =
         [Event.listenAttempt (resolveSockPath cfg env),
          Event.fatal (fatalRequestLimitMsg cfg.requestLimit)] ∧
       containsStr (fatalRequestLimitMsg cfg.requestLimit)
         (toString cfg.requestLimit) = true) ∧
    ((cfg.socketFile = "" ∨ cfg.socketFileEnv = "") → 1 ≤ cfg.requestLimit →
       cfg.nodeID.utf8ByteSize > defaultMaxStringLen →
       runMain cfg env none se =
         [Event.listenAttempt (resolveSockPath cfg env),
          Event.fatal (fatalNodeIDMsg cfg.nodeID)] ∧
       containsStr (fatalNodeIDMsg cfg.nodeID) (goQuote cfg.nodeID) = true) := by
  refine ⟨?_, ?_, ?_⟩
  · intro h1 h2
    refine ⟨by simp [runMain, h1, h2], ?_⟩
    show containsStr (("[") ++ cfg.vgname ++
      ("] cannot specify -unix-addr and -unix-addr-env")) cfg.vgname = true
    exact containsStr_append_mid _ _ _
  · intro hc h
    have hc' := not_conflict_of_empty hc
    refine ⟨by simp [runMain, hc', h], ?_⟩
    show containsStr (("request-limit requires a positive, integer value instead of ")
      ++ toString cfg.requestLimit) (toString cfg.requestLimit) = true
    exact containsStr_append_right _ _
  · intro hc hl hn
    have hc' := not_conflict_of_empty hc
    have hl' : ¬(cfg.requestLimit < 1) := not_lt.mpr hl
    refine ⟨by simp only [runMain, if_neg hc', if_neg hl', if_pos hn], ?_⟩
    show containsStr ((("node-id cannot be longer than ") ++
      toString defaultMaxStringLen ++ (" bytes: ")) ++ goQuote cfg.nodeID)
      (goQuote cfg.nodeID) = true
    exact containsStr_append_right _ _

/-- C8 amended witness: each of the three configuration errors at a
concrete input. -/
theorem config_error_diagnostics_witness :
    (runMain cfgBothSockets envEmpty none none =
       [Event.fatal (fatalConflictMsg cfgBothSockets.vgname)] ∧
     containsStr (fatalConflictMsg cfgBothSockets.vgname)
       cfgBothSockets.vgname = true) ∧
    (runMain cfgLimitZero envEmpty none none =
       [Event.listenAttempt (resolveSockPath cfgLimitZero envEmpty),
        Event.fatal (fatalRequestLimitMsg cfgLimitZero.requestLimit)] ∧
     containsStr (fatalRequestLimitMsg cfgLimitZero.requestLimit)
       (toString cfgLimitZero.requestLimit) = true) ∧
    (runMain cfgNode129 envEmpty none none =
       [Event.listenAttempt (resolveSockPath cfgNode129 envEmpty),
        Event.fatal (fatalNodeIDMsg cfgNode129.nodeID)] ∧
     containsStr (fatalNodeIDMsg cfgNode129.nodeID)
       (goQuote cfgNode129.nodeID) = true) :=
  ⟨(config_error_diagnostics cfgBothSockets envEmpty none none).1
      (by decide) (by decide),
   (config_error_diagnostics cfgLimitZero envEmpty none none).2.1
      (by decide) (by decide),
   (config_error_diagnostics cfgNode129 envEmpty none none).2.2
      (by decide) (by decide) (by decide)⟩

/-- C10: a run reaching server construction passes it the `-devices`
string split on commas; the split keeps one segment per comma plus one
(no empty-segment filtering), and an empty `-devices` value yields the
one-element list holding the empty string. -/
theorem devices_split_no_filtering (cfg : Config) (env : String → String)
    (se : Option String)
    (hc : cfg.socketFile = "" ∨ cfg.socketFileEnv = "")
    (hl : 1 ≤ cfg.requestLimit)
    (hn : cfg.nodeID.utf8ByteSize ≤ defaultMaxStringLen) :
    Event.serverConstructed (mkServer cfg) ∈ runMain cfg env none se ∧
    (mkServer cfg).pvnames = stringsSplitComma cfg.pvnames ∧
    (stringsSplitComma cfg.pvnames).length = cfg.pvnames.toList.count ',' + 1 ∧
    (cfg.pvnames = "" → (mkServer cfg).pvnames = [("")]) := by
  refine ⟨?_, rfl, stringsSplitComma_length cfg.pvnames, ?_⟩
  · rw [runMain_ok cfg env se hc hl hn]
    simp
  · intro h
    simp [mkServer, h, stringsSplitComma, stringsSplitCommaAux]

/-- C10 witness: the empty `-devices` default in an otherwise valid
configuration. -/
theorem devices_split_no_filtering_witness :
    Event.serverConstructed (mkServer cfgNoDevices) ∈
      runMain cfgNoDevices envEmpty none none ∧
    (mkServer cfgNoDevices).pvnames = stringsSplitComma cfgNoDevices.pvnames ∧
    (stringsSplitComma cfgNoDevices.pvnames).length =
      cfgNoDevices.pvnames.toList.count ',' + 1 ∧
    (cfgNoDevices.pvnames = "" → (mkServer cfgNoDevices).pvnames = [("")]) :=
  devices_split_no_filtering cfgNoDevices envEmpty none
    (by decide) (by decide) (by decide)

end Csilvm

namespace Lvs

/-- C9: the client bundle constructor is a total pure composition: for any
connection handle it returns, without failure, validation or I/O, the
bundle of the identity client and the controller client, each built over
that same connection and exposed as an independent component. -/
theorem client_bundle_pure_composition (conn : ClientConn) :
    NewClient conn =
      { identityClient := NewIdentityClient conn
        controllerClient := NewControllerClient conn } ∧
    (NewClient conn).identityClient.conn = conn ∧
    (NewClient conn).controllerClient.conn = conn :=
  ⟨rfl, rfl, rfl⟩

end Lvs
